import Mathlib

/-!
Formal model of the product-listing page implemented in `src/app/page.tsx`.

The page fetches a product catalog, derives the sorted set of distinct
category strings, builds a JSON-LD collection document, and renders a grid
of product cards together with an item-count subtitle.  Each definition
below embeds one piece of that source file; theorems about the claims of
the specification follow the definitions.
-/

/-- Product record as declared in `page.tsx` lines 5-12.  The `price` field
is a decimal number in the source; it is modelled as a rational. -/
structure Product where
  id : Nat
  title : String
  price : ℚ
  description : String
  category : String
  image : String
deriving DecidableEq

/-- The request that `getProducts` issues (lines 15-17): a GET with a fixed
URL and caching disabled via `cache: "no-store"`.  `fetch` defaults to the
GET method when none is given. -/
structure FetchRequest where
  url : String
  method : String
  cache : String
deriving DecidableEq

/-- The constant request built at line 15 of `page.tsx`. -/
def productsRequest : FetchRequest :=
  { url := "https://fakestoreapi.com/products"
    method := "GET"
    cache := "no-store" }

/-- Upstream reply: a success flag (`response.ok`) and, when parsing
succeeds, the JSON array of products (`response.json()`). -/
structure FetchResponse where
  ok : Bool
  body : List Product

/-- Embeds `getProducts` (lines 14-24): when `response.ok` is false the
function throws `Error("Failed to load products from Fake Store API")`,
otherwise it returns the parsed product list. -/
def getProducts (r : FetchResponse) : Except String (List Product) :=
  if r.ok then Except.ok r.body
  else Except.error "Failed to load products from Fake Store API"

/-- One step of the JS `Set` constructor: keep the first occurrence of each
element, in insertion order. -/
def insertUnique (acc : List String) (a : String) : List String :=
  if a ∈ acc then acc else acc ++ [a]

/-- Embeds `Array.from(new Set(xs))`: the distinct elements of `xs` in
first-occurrence order. -/
def setFromList (xs : List String) : List String :=
  xs.foldl insertUnique []

/-- Lexicographic comparison of strings, expressed on their character
lists; this is the order of the JS default `sort()` comparator, and it is
equivalent to the ambient linear order on `String`
(see `strLe_iff_le` below). -/
def strLe (a b : String) : Prop :=
  a.data ≤ b.data

instance : DecidableRel strLe :=
  fun a b => inferInstanceAs (Decidable (a.data ≤ b.data))

/-- Embeds `Array.from(new Set(xs)).sort()` for a list of strings:
deduplicate, then sort ascending by the lexicographic string order. -/
def categoriesOf (xs : List String) : List String :=
  List.insertionSort strLe (setFromList xs)

/-- Embeds line 29 of `page.tsx`:
`Array.from(new Set(products.map((p) => p.category))).sort()`. -/
def categories (L : List Product) : List String :=
  categoriesOf (L.map Product.category)

/-- One entry of `itemListElement` (lines 40-43). -/
structure ListItem where
  atType : String
  position : Nat
  url : String
  name : String
deriving DecidableEq

/-- The `mainEntity` object (lines 37-45). -/
structure ItemList where
  atType : String
  itemListElement : List ListItem
deriving DecidableEq

/-- The JSON-LD document built at lines 31-46. -/
structure Schema where
  atContext : String
  atType : String
  name : String
  description : String
  mainEntity : ItemList
deriving DecidableEq

/-- The object produced for one product at lines 40-43, where `index` is
the 0-based position in the mapped list. -/
def itemOf (index : Nat) (product : Product) : ListItem :=
  { atType := "ListItem"
    position := index + 1
    url := "https://example.com/products/" ++ toString product.id
    name := product.title }

/-- Embeds `products.map((product, index) => ...)` (lines 39-44): a map
that also passes the running 0-based index. -/
def buildItems : Nat → List Product → List ListItem
  | _, [] => []
  | i, p :: ps => itemOf i p :: buildItems (i + 1) ps

/-- Embeds the `schema` object literal (lines 31-46). -/
def schema (products : List Product) : Schema :=
  { atContext := "https://schema.org"
    atType := "CollectionPage"
    name := "Discover Our Products"
    description := "Browse a curated list of demo products rendered on a server-side Appscrip PLP implementation."
    mainEntity :=
      { atType := "ItemList"
        itemListElement := buildItems 0 products } }

/-- One product card of the grid (lines 178-200): the fields of the product
shown on the card. -/
structure Card where
  title : String
  category : String
  price : ℚ
  image : String
deriving DecidableEq

/-- Embeds `products.map((product) => <article ...>)` (lines 177-201): one
card per product, in order. -/
def gridCards (products : List Product) : List Card :=
  products.map fun p =>
    { title := p.title, category := p.category, price := p.price, image := p.image }

/-- Embeds the grid subtitle text (line 157):
`{products.length} items from Fake Store API`. -/
def gridSubtitle (products : List Product) : String :=
  toString products.length ++ " items from Fake Store API"

/-- The data content of the rendered page: the category filter list, the
item-count subtitle, the product cards and the embedded JSON-LD document. -/
structure Page where
  categoryFilters : List String
  subtitle : String
  cards : List Card
  schemaDoc : Schema
deriving DecidableEq

/-- Assembles the page markup data from a fetched product list
(the body of `Home`, lines 26-239). -/
def makePage (products : List Product) : Page :=
  { categoryFilters := categories products
    subtitle := gridSubtitle products
    cards := gridCards products
    schemaDoc := schema products }

/-- Embeds the whole render of `Home` (lines 26-27 and onward): the awaited
`getProducts` either throws, aborting the render, or yields the product
list from which the page is assembled. -/
def renderPage (r : FetchResponse) : Except String Page :=
  match getProducts r with
  | Except.error e => Except.error e
  | Except.ok products => Except.ok (makePage products)

/-- Line 29 with the data flow of the JS evaluation made explicit: `map`
allocates a fresh array, `Array.from(new Set(...))` allocates another, and
`.sort()` sorts that fresh array in place; the input array `products` is
never written.  The second component is the product list as it stands after
the call. -/
def categoriesProc (products : List Product) : List String × List Product :=
  let mapped := products.map Product.category
  let deduped := setFromList mapped
  let sortedArr := List.insertionSort strLe deduped
  (sortedArr, products)

/-- Lines 31-46 with the data flow made explicit: the `map` at line 39
allocates new list-item objects and reads, never writes, `products`.  The
second component is the product list as it stands after the call. -/
def schemaProc (products : List Product) : Schema × List Product :=
  (schema products, products)

/-- First scenario product of the specification:
`{id:1, title:"A", price:9.5, category:"x", ...}`. -/
def prodA : Product :=
  { id := 1, title := "A", price := (19 : ℚ) / 2, description := "d1",
    category := "x", image := "https://example.com/img/1.png" }

/-- Second scenario product of the specification:
`{id:2, title:"B", price:20, category:"y", ...}`. -/
def prodB : Product :=
  { id := 2, title := "B", price := 20, description := "d2",
    category := "y", image := "https://example.com/img/2.png" }

/-- The Bool-computable sort relation agrees with the linear order on
`String`. -/
theorem strLe_iff_le (a b : String) : strLe a b ↔ a ≤ b :=
  Iff.symm String.le_iff_toList_le

instance : IsTotal String strLe :=
  ⟨fun a b => (le_total a b).imp (strLe_iff_le a b).mpr (strLe_iff_le b a).mpr⟩

instance : IsTrans String strLe :=
  ⟨fun a b c hab hbc =>
    (strLe_iff_le a c).mpr (le_trans ((strLe_iff_le a b).mp hab) ((strLe_iff_le b c).mp hbc))⟩

/-- Membership after folding `insertUnique`: an element is in the result
iff it is in the accumulator or in the folded list. -/
theorem mem_foldl_insertUnique (l : List String) :
    ∀ (acc : List String) (a : String),
      a ∈ l.foldl insertUnique acc ↔ a ∈ acc ∨ a ∈ l := by
  induction l with
  | nil => intro acc a; simp
  | cons b l ih =>
    intro acc a
    rw [List.foldl_cons, ih]
    unfold insertUnique
    by_cases hb : b ∈ acc
    · simp only [if_pos hb, List.mem_cons]
      constructor
      · rintro (h | h)
        · exact Or.inl h
        · exact Or.inr (Or.inr h)
      · rintro (h | rfl | h)
        · exact Or.inl h
        · exact Or.inl hb
        · exact Or.inr h
    · simp only [if_neg hb, List.mem_append, List.mem_singleton, List.mem_cons]
      tauto

/-- Folding `insertUnique` preserves freedom from duplicates. -/
theorem nodup_foldl_insertUnique (l : List String) :
    ∀ acc : List String, acc.Nodup → (l.foldl insertUnique acc).Nodup := by
  induction l with
  | nil => intro acc h; simpa using h
  | cons b l ih =>
    intro acc hacc
    rw [List.foldl_cons]
    apply ih
    unfold insertUnique
    by_cases hb : b ∈ acc
    · simpa [if_pos hb] using hacc
    · rw [if_neg hb]
      simpa [List.nodup_append] using ⟨hacc, hb⟩

/-- Folding `insertUnique` over a duplicate-free list disjoint from the
accumulator just appends the list. -/
theorem foldl_insertUnique_of_nodup (l : List String) :
    ∀ acc : List String, l.Nodup → (∀ a ∈ l, a ∉ acc) →
      l.foldl insertUnique acc = acc ++ l := by
  induction l with
  | nil => intro acc _ _; simp
  | cons b l ih =>
    intro acc hnd hdis
    rw [List.foldl_cons]
    have hb : b ∉ acc := hdis b (List.mem_cons_self b l)
    rw [show insertUnique acc b = acc ++ [b] from if_neg hb]
    rw [ih (acc ++ [b]) hnd.of_cons]
    · simp
    · intro a ha
      simp only [List.mem_append, List.mem_singleton]
      rintro (h | rfl)
      · exact hdis a (List.mem_cons_of_mem b ha) h
      · exact (List.nodup_cons.mp hnd).1 ha

/-- The elements of `setFromList xs` are exactly those of `xs`. -/
theorem mem_setFromList (xs : List String) (a : String) :
    a ∈ setFromList xs ↔ a ∈ xs := by
  unfold setFromList
  rw [mem_foldl_insertUnique]
  simp

/-- The result of `setFromList` has no duplicates. -/
theorem nodup_setFromList (xs : List String) : (setFromList xs).Nodup :=
  nodup_foldl_insertUnique xs [] List.nodup_nil

/-- On a duplicate-free list, `setFromList` is the identity. -/
theorem setFromList_eq_self {xs : List String} (h : xs.Nodup) :
    setFromList xs = xs := by
  unfold setFromList
  simpa using foldl_insertUnique_of_nodup xs [] h (by simp)

/-- `buildItems` produces one item per product. -/
theorem buildItems_length (L : List Product) :
    ∀ n : Nat, (buildItems n L).length = L.length := by
  induction L with
  | nil => intro n; rfl
  | cons p ps ih => intro n; simp [buildItems, ih]

/-- The `i`-th entry of `buildItems n L` is the item built from the `i`-th
product with running index `n + i`. -/
theorem buildItems_getElem? (L : List Product) :
    ∀ n i : Nat, (buildItems n L)[i]? = (L[i]?).map fun p => itemOf (n + i) p := by
  induction L with
  | nil => intro n i; simp [buildItems]
  | cons p ps ih =>
    intro n i
    cases i with
    | zero => simp [buildItems]
    | succ j =>
      simp only [buildItems, List.getElem?_cons_succ, ih (n + 1) j]
      have h : n + 1 + j = n + (j + 1) := by omega
      rw [h]

/-- The result of `categories` has no duplicates: sorting permutes the
duplicate-free output of `setFromList`. -/
theorem categories_nodup (L : List Product) : (categories L).Nodup :=
  (List.perm_insertionSort strLe _).nodup_iff.mpr
    (nodup_setFromList (L.map Product.category))

/-- The result of `categories` is sorted with respect to the computable
lexicographic relation. -/
theorem categories_sorted_strLe (L : List Product) :
    (categories L).Sorted strLe :=
  List.sorted_insertionSort strLe (setFromList (L.map Product.category))

/-- The dedup-and-sort pipeline is idempotent: its output is duplicate
free and sorted, and on such a list both stages are the identity. -/
theorem categoriesOf_idem (xs : List String) :
    categoriesOf (categoriesOf xs) = categoriesOf xs := by
  have hnd : (categoriesOf xs).Nodup :=
    (List.perm_insertionSort strLe _).nodup_iff.mpr (nodup_setFromList xs)
  have hs : (categoriesOf xs).Sorted strLe :=
    List.sorted_insertionSort strLe (setFromList xs)
  show List.insertionSort strLe (setFromList (categoriesOf xs)) = categoriesOf xs
  rw [setFromList_eq_self hnd, hs.insertionSort_eq]

/-- Every URL built by `itemOf` lives under `https://example.com/` and
therefore differs from the catalog endpoint and from everything below it:
the two hosts disagree at character index 8. -/
theorem example_url_ne_upstream (s t : String) :
    "https://example.com/products/" ++ s ≠ "https://fakestoreapi.com/products" ++ t := by
  intro h
  have hd : ("https://example.com/products/").data ++ s.data =
      ("https://fakestoreapi.com/products").data ++ t.data := by
    rw [← String.data_append, ← String.data_append, h]
  have h8 : (("https://example.com/products/").data ++ s.data)[8]? =
      (("https://fakestoreapi.com/products").data ++ t.data)[8]? := by rw [hd]
  rw [List.getElem?_append_left (by decide), List.getElem?_append_left (by decide)] at h8
  exact absurd h8 (by decide)

/-- C1: for every product list `L`, `categories L` contains exactly the
distinct category strings occurring in `L`, has no duplicates, and is
sorted ascending in the lexicographic string order. -/
theorem categories_spec (L : List Product) :
    (categories L).Nodup ∧
    (categories L).Sorted (· ≤ ·) ∧
    ∀ c : String, c ∈ categories L ↔ ∃ p ∈ L, p.category = c := by
  refine ⟨categories_nodup L, ?_, ?_⟩
  · exact (categories_sorted_strLe L).imp fun h => (strLe_iff_le _ _).mp h
  · intro c
    rw [categories, categoriesOf, (List.perm_insertionSort strLe _).mem_iff,
      mem_setFromList]
    simp [List.mem_map, eq_comm]

/-- C2: the structured-data document has exactly one `itemListElement`
entry per product, in order; the entry at 0-based index `i` carries
position `i + 1`, the URL derived from the product's id, and the
product's title as its name. -/
theorem schema_itemList_spec (L : List Product) :
    (schema L).mainEntity.itemListElement.length = L.length ∧
    ∀ (i : Nat) (p : Product), L[i]? = some p →
      ((schema L).mainEntity.itemListElement)[i]? =
        some { atType := "ListItem", position := i + 1,
               url := "https://example.com/products/" ++ toString p.id,
               name := p.title } := by
  constructor
  · exact buildItems_length L 0
  · intro i p hp
    show (buildItems 0 L)[i]? = _
    rw [buildItems_getElem? L 0 i, hp]
    simp [itemOf, Nat.zero_add]

/-- Witness for C2 at the one-product list `[prodA]`. -/
theorem schema_itemList_spec_witness :
    ([prodA] : List Product)[0]? = some prodA ∧
    ((schema [prodA]).mainEntity.itemListElement)[0]? =
      some { atType := "ListItem", position := 1,
             url := "https://example.com/products/1", name := "A" } :=
  ⟨rfl, (schema_itemList_spec [prodA]).2 0 prodA rfl⟩

/-- C3: on a non-success upstream status the fetch fails with the single
error of the core and the render aborts with no page; on a success status
the render succeeds, so the fetch failure is the only error kind. -/
theorem renderPage_error_spec (r : FetchResponse) :
    (r.ok = false →
      getProducts r = Except.error "Failed to load products from Fake Store API" ∧
      renderPage r = Except.error "Failed to load products from Fake Store API" ∧
      ∀ pg : Page, renderPage r ≠ Except.ok pg) ∧
    (r.ok = true → renderPage r = Except.ok (makePage r.body)) := by
  constructor
  · intro h
    have hg : getProducts r = Except.error "Failed to load products from Fake Store API" := by
      simp [getProducts, h]
    refine ⟨hg, ?_, ?_⟩
    · simp [renderPage, hg]
    · intro pg
      simp [renderPage, hg]
  · intro h
    simp [renderPage, getProducts, h]

/-- Witness for C3: a failed response aborts the render, a successful one
renders the page. -/
theorem renderPage_error_spec_witness :
    renderPage ⟨false, []⟩ = Except.error "Failed to load products from Fake Store API" ∧
    renderPage ⟨true, []⟩ = Except.ok (makePage []) :=
  ⟨((renderPage_error_spec ⟨false, []⟩).1 rfl).2.1,
   (renderPage_error_spec ⟨true, []⟩).2 rfl⟩

/-- C4: the two derivations are deterministic (equal outputs on equal
inputs, trivially so in a pure model) and the dedup-and-sort pipeline is
idempotent: re-deriving from an already derived category list changes
nothing. -/
theorem derivations_deterministic (L : List Product) :
    categories L = categories L ∧
    schema L = schema L ∧
    categoriesOf (categories L) = categories L :=
  ⟨rfl, rfl, categoriesOf_idem (L.map Product.category)⟩

/-- C5 counterexample: on the empty list the item-count label is not the
exact string "0 items". -/
theorem empty_render_counterexample :
    ¬(categories ([] : List Product) = [] ∧
      gridCards ([] : List Product) = [] ∧
      gridSubtitle [] = "0 items") := by
  decide

/-- C5 amended: on the empty list the category set is empty, the grid has
zero cards, and the item-count label reads
"0 items from Fake Store API" (beginning with "0 items"). -/
theorem empty_render_spec :
    categories ([] : List Product) = [] ∧
    gridCards ([] : List Product) = [] ∧
    gridSubtitle [] = "0 items from Fake Store API" := by
  decide

/-- C6: on the two-product scenario list the category set is
`["x", "y"]` and the item list carries positions 1 and 2 with names
"A" and "B". -/
theorem two_product_scenario :
    categories [prodA, prodB] = ["x", "y"] ∧
    ((schema [prodA, prodB]).mainEntity.itemListElement).map
      (fun e => (e.position, e.name)) = [(1, "A"), (2, "B")] := by
  decide

/-- C7: the catalog request is the constant GET of the fixed endpoint,
without query parameters and with caching disabled. -/
theorem productsRequest_spec :
    productsRequest.url = "https://fakestoreapi.com/products" ∧
    productsRequest.method = "GET" ∧
    productsRequest.cache = "no-store" ∧
    '?' ∉ productsRequest.url.data := by
  decide

/-- C8: every top-level field of the structured-data document is a
constant independent of the product list; two documents with the same
item list are equal, so only `mainEntity.itemListElement` varies. -/
theorem schema_constant_fields (L L' : List Product)
    (h : (schema L).mainEntity.itemListElement = (schema L').mainEntity.itemListElement) :
    schema L = schema L' ∧
    (schema L).atContext = "https://schema.org" ∧
    (schema L).atType = "CollectionPage" ∧
    (schema L).name = "Discover Our Products" ∧
    (schema L).description = "Browse a curated list of demo products rendered on a server-side Appscrip PLP implementation." ∧
    (schema L).mainEntity.atType = "ItemList" := by
  refine ⟨?_, rfl, rfl, rfl, rfl, rfl⟩
  simp only [schema, Schema.mk.injEq, ItemList.mk.injEq, true_and]
  simpa [schema] using h

/-- Witness for C8 at the empty list. -/
theorem schema_constant_fields_witness :
    schema ([] : List Product) = schema ([] : List Product) ∧
    (schema ([] : List Product)).atContext = "https://schema.org" :=
  ⟨(schema_constant_fields [] [] rfl).1, (schema_constant_fields [] [] rfl).2.1⟩

/-- C9: the `i`-th item-list entry's URL is the example.com product URL
built from the decimal representation of the product's id, and it is not
the catalog endpoint nor anything below it. -/
theorem item_url_spec (L : List Product) (i : Nat) (p : Product)
    (h : L[i]? = some p) :
    ∃ e : ListItem, ((schema L).mainEntity.itemListElement)[i]? = some e ∧
      e.url = "https://example.com/products/" ++ toString p.id ∧
      ∀ t : String, e.url ≠ productsRequest.url ++ t := by
  refine ⟨itemOf i p, ?_, rfl, ?_⟩
  · show (buildItems 0 L)[i]? = some (itemOf i p)
    rw [buildItems_getElem? L 0 i, h]
    simp [Nat.zero_add]
  · intro t
    exact example_url_ne_upstream (toString p.id) t

/-- Witness for C9 at the one-product list `[prodB]`. -/
theorem item_url_spec_witness :
    ([prodB] : List Product)[0]? = some prodB ∧
    ∃ e : ListItem, ((schema [prodB]).mainEntity.itemListElement)[0]? = some e ∧
      e.url = "https://example.com/products/" ++ toString prodB.id ∧
      ∀ t : String, e.url ≠ productsRequest.url ++ t :=
  ⟨rfl, item_url_spec [prodB] 0 prodB rfl⟩

/-- C10: neither derivation writes the input product list: in the explicit
data-flow models the list after the call is the list before it, while the
results agree with the pure derivations. -/
theorem derivations_no_mutation (L : List Product) :
    (categoriesProc L).2 = L ∧ (categoriesProc L).1 = categories L ∧
    (schemaProc L).2 = L ∧ (schemaProc L).1 = schema L :=
  ⟨rfl, rfl, rfl, rfl⟩
